import Mathlib

/-!
Shallow embedding of the Mics-backend orchestrator core
(`orchestrator/state.py`, `orchestrator/RouterGateway.py`,
`orchestrator/orchestrator_station.py`, `orchestrator/api.py`)
and proofs of the behavioural properties claimed for it.
-/

namespace Mics

/-! ## Python value model

Pilot records, handshake payloads and task payloads are Python dicts with
string keys; we model them as insertion-ordered association lists over a
small JSON-like value type. -/

inductive PVal where
  | vnull
  | vbool (b : Bool)
  | vnum (n : Int)
  | vstr (s : String)
  | vdict (fields : List (String × PVal))
  | vlist (items : List PVal)
deriving Repr

abbrev Dict := List (String × PVal)

/-- `d[k] = v` for a Python dict: replace the first binding of `k`
(keeping its position) or append a fresh one. -/
def alistSet {κ α : Type} [DecidableEq κ] : List (κ × α) → κ → α → List (κ × α)
  | [], k, v => [(k, v)]
  | (k', v') :: rest, k, v =>
      if k' = k then (k, v) :: rest else (k', v') :: alistSet rest k v

/-- `d.get(k)` returning `none` when the key is absent. -/
def alistGet {κ α : Type} [DecidableEq κ] : List (κ × α) → κ → Option α
  | [], _ => none
  | (k', v') :: rest, k => if k' = k then some v' else alistGet rest k

/-- `d.update(other)`: fold every binding of `other` into `d` in order. -/
def dictUpdate (d other : Dict) : Dict :=
  other.foldl (fun acc kv => alistSet acc kv.1 kv.2) d

/-- `d.get(k)` as Python sees it: an absent key and a stored `None`
are both `None`. -/
def pyGet (d : Dict) (k : String) : PVal :=
  (alistGet d k).getD PVal.vnull

/-- `v is None` for a dict value. -/
def isNull : PVal → Bool
  | PVal.vnull => true
  | _ => false

/-- Python truthiness of a value. -/
def truthy : PVal → Bool
  | PVal.vnull => false
  | PVal.vbool b => b
  | PVal.vnum n => n != 0
  | PVal.vstr s => !s.isEmpty
  | PVal.vdict fields => !fields.isEmpty
  | PVal.vlist items => !items.isEmpty

/-- Python truthiness of an optional string argument. -/
def truthyStr : Option String → Bool
  | none => false
  | some s => !s.isEmpty

/-- Python `stored == ip` where `stored` is a dict value and `ip` a string. -/
def pvalEqStr : PVal → String → Bool
  | PVal.vstr s, t => s = t
  | _, _ => false

/-! ## Exceptions

`api.py` distinguishes `ValueError` (HTTP 400) from every other exception
(HTTP 500), so the embedding tracks the exception class. -/

inductive PyErrKind where
  | valueError
  | runtimeError
  | keyError
  | typeError
  | indexError
  | httpError    -- requests.HTTPError from MicsApiClient's raise_for_status
deriving DecidableEq, Repr

structure PyErr where
  kind : PyErrKind
  msg : String
deriving DecidableEq, Repr

/-! ## `orchestrator/state.py` — OrchestratorState

The registry `_pilots : Dict[str, Dict[str, Any]]` is an insertion-ordered
map from pilot key to record dict (iteration order matters for
`resolve_pilot_key`'s IP scan). `_last_seen` is irrelevant to the claims
and omitted from lookups but kept faithful where read. -/

abbrev Pilots := List (String × Dict)

/-- `update_handshake`: merge the payload into the record, then restore
`active_run` when the prior record had a non-`None` one. -/
def update_handshake (pilots : Pilots) (pilot : String) (payload : Dict) : Pilots :=
  let cur := (alistGet pilots pilot).getD []
  let active_run := pyGet cur "active_run"
  let cur := dictUpdate cur payload
  let cur := if isNull active_run then cur else alistSet cur "active_run" active_run
  alistSet pilots pilot cur

/-- `set_state(pilot, state_value)`. -/
def set_state (pilots : Pilots) (pilot : String) (state_value : PVal) : Pilots :=
  let cur := (alistGet pilots pilot).getD []
  alistSet pilots pilot (alistSet cur "state" state_value)

/-- `set_active_run(pilot, run)`; `run = None` is stored as `vnull`. -/
def set_active_run (pilots : Pilots) (pilot : String) (run : PVal) : Pilots :=
  let cur := (alistGet pilots pilot).getD []
  alistSet pilots pilot (alistSet cur "active_run" run)

/-- `get_pilot`: `dict(p) if p else None` — an empty record is reported
as absent. -/
def get_pilot (pilots : Pilots) (pilot : String) : Option Dict :=
  match alistGet pilots pilot with
  | some p => if p.isEmpty then none else some p
  | none => none

/-- `resolve_pilot_key(db_name=, ip=)`: direct key, then `pilot_{name}`,
then first pilot whose recorded `ip` equals the argument; otherwise a
`KeyError`. -/
def resolve_pilot_key (pilots : Pilots) (db_name ip : Option String) :
    Except PyErr String :=
  if truthyStr db_name ∧ (alistGet pilots (db_name.getD "")).isSome then
    Except.ok (db_name.getD "")
  else if truthyStr db_name ∧
      (alistGet pilots ("pilot_" ++ db_name.getD "")).isSome then
    Except.ok ("pilot_" ++ db_name.getD "")
  else if truthyStr ip then
    match pilots.find? (fun kv => pvalEqStr (pyGet kv.2 "ip") (ip.getD "")) with
    | some kv => Except.ok kv.1
    | none => Except.error ⟨PyErrKind.keyError, "Pilot not found in orchestrator state"⟩
  else
    Except.error ⟨PyErrKind.keyError, "Pilot not found in orchestrator state"⟩

/-! ### Association-list lemmas -/

theorem alistGet_alistSet_self {κ α : Type} [DecidableEq κ]
    (d : List (κ × α)) (k : κ) (v : α) :
    alistGet (alistSet d k v) k = some v := by
  induction d with
  | nil => simp [alistSet, alistGet]
  | cons hd tl ih =>
      by_cases h : hd.1 = k
      · simp [alistSet, alistGet, h]
      · simp [alistSet, alistGet, h, ih]

theorem alistGet_alistSet_ne {κ α : Type} [DecidableEq κ]
    (d : List (κ × α)) (k k' : κ) (v : α) (hne : k' ≠ k) :
    alistGet (alistSet d k v) k' = alistGet d k' := by
  have hkk : ¬(k = k') := fun h => hne h.symm
  induction d with
  | nil => simp [alistSet, alistGet, hkk]
  | cons hd tl ih =>
      obtain ⟨k₁, v₁⟩ := hd
      by_cases h : k₁ = k
      · subst h
        simp [alistSet, alistGet, hkk]
      · simp [alistSet, alistGet, h, ih]

theorem alistSet_ne_nil {κ α : Type} [DecidableEq κ]
    (d : List (κ × α)) (k : κ) (v : α) :
    alistSet d k v ≠ [] := by
  cases d with
  | nil => simp [alistSet]
  | cons hd tl =>
      by_cases h : hd.1 = k <;> simp [alistSet, h]

/-- C3: after `update_handshake(p, payload)` on a registry whose prior
record for `p` had a non-`None` `active_run`, `get_pilot(p)` returns a
record whose `active_run` is that same prior value, for every payload. -/
theorem update_handshake_preserves_active_run
    (pilots : Pilots) (pilot : String) (payload : Dict) (v : PVal)
    (hv : pyGet ((alistGet pilots pilot).getD []) "active_run" = v)
    (hnn : isNull v = false) :
    ∃ rec, get_pilot (update_handshake pilots pilot payload) pilot = some rec ∧
      pyGet rec "active_run" = v := by
  refine ⟨alistSet (dictUpdate ((alistGet pilots pilot).getD []) payload)
      "active_run" v, ?_, ?_⟩
  · simp only [update_handshake, get_pilot]
    rw [hv, hnn]
    simp only [Bool.false_eq_true, if_false, alistGet_alistSet_self]
    have hne := alistSet_ne_nil (dictUpdate ((alistGet pilots pilot).getD []) payload)
      "active_run" v
    simp [List.isEmpty_iff, hne]
  · unfold pyGet
    rw [alistGet_alistSet_self]
    rfl

/-- C3 witness registry: pilot `gamma` with `active_run = {id: 22}`. -/
def gammaPilots : Pilots :=
  [("gamma", [("ip", PVal.vstr "10.0.0.3"),
              ("active_run", PVal.vdict [("id", PVal.vnum 22)])])]

/-- Witness for C3 at a concrete registry and handshake payload that even
tries to overwrite `active_run`. -/
theorem update_handshake_preserves_active_run_witness :
    ∃ rec, get_pilot
        (update_handshake gammaPilots "gamma"
          [("ip", PVal.vstr "10.0.0.9"), ("active_run", PVal.vnull)])
        "gamma" = some rec ∧
      pyGet rec "active_run" = PVal.vdict [("id", PVal.vnum 22)] :=
  update_handshake_preserves_active_run gammaPilots "gamma"
    [("ip", PVal.vstr "10.0.0.9"), ("active_run", PVal.vnull)]
    (PVal.vdict [("id", PVal.vnum 22)]) (by rfl) (by rfl)

/-- C5 example registry: registered pilot `pilot_rpi_1` at `192.0.2.5`. -/
def rpiPilots : Pilots := [("pilot_rpi_1", [("ip", PVal.vstr "192.0.2.5")])]

/-- C5: `resolve_pilot_key` tries, in order, `db_name` itself, then
`pilot_{db_name}`, then — also when a supplied `db_name` matched neither
key form — the first known pilot whose recorded `ip` equals the
argument; with no candidate (including both arguments null) it fails
with a not-found (`KeyError`) error.  On the example registry,
`{db_name: "rpi_1"}`, `{ip: "192.0.2.5"}` and an unknown `db_name`
falling through to that ip all resolve to `"pilot_rpi_1"`. -/
theorem resolve_pilot_key_spec :
    (∀ ps (db : String) ip, db ≠ "" → (alistGet ps db).isSome →
        resolve_pilot_key ps (some db) ip = Except.ok db) ∧
    (∀ ps (db : String) ip, db ≠ "" → alistGet ps db = none →
        (alistGet ps ("pilot_" ++ db)).isSome →
        resolve_pilot_key ps (some db) ip = Except.ok ("pilot_" ++ db)) ∧
    (∀ ps (ip : String) kv, ip ≠ "" →
        ps.find? (fun kv => pvalEqStr (pyGet kv.2 "ip") ip) = some kv →
        resolve_pilot_key ps none (some ip) = Except.ok kv.1) ∧
    (∀ ps (ip : String), ip ≠ "" →
        ps.find? (fun kv => pvalEqStr (pyGet kv.2 "ip") ip) = none →
        (resolve_pilot_key ps none (some ip)).isOk = false) ∧
    (∀ ps, (resolve_pilot_key ps none none).isOk = false) ∧
    resolve_pilot_key rpiPilots (some "rpi_1") none = Except.ok "pilot_rpi_1" ∧
    resolve_pilot_key rpiPilots none (some "192.0.2.5") = Except.ok "pilot_rpi_1" ∧
    (∀ ps (db ip : String) kv, db ≠ "" → alistGet ps db = none →
        alistGet ps ("pilot_" ++ db) = none → ip ≠ "" →
        ps.find? (fun kv => pvalEqStr (pyGet kv.2 "ip") ip) = some kv →
        resolve_pilot_key ps (some db) (some ip) = Except.ok kv.1) ∧
    (∀ ps (db : String), db ≠ "" → alistGet ps db = none →
        alistGet ps ("pilot_" ++ db) = none →
        (resolve_pilot_key ps (some db) none).isOk = false) ∧
    (∀ ps (db ip : String), db ≠ "" → alistGet ps db = none →
        alistGet ps ("pilot_" ++ db) = none → ip ≠ "" →
        ps.find? (fun kv => pvalEqStr (pyGet kv.2 "ip") ip) = none →
        (resolve_pilot_key ps (some db) (some ip)).isOk = false) ∧
    resolve_pilot_key rpiPilots (some "rpi_9") (some "192.0.2.5") =
      Except.ok "pilot_rpi_1" := by
  refine ⟨?_, ?_, ?_, ?_, ?_, by rfl, by rfl, ?_, ?_, ?_, by rfl⟩
  · intro ps db ip hdb hsome
    unfold resolve_pilot_key
    simp [truthyStr, String.isEmpty_iff, hdb, hsome]
  · intro ps db ip hdb hnone hsome
    unfold resolve_pilot_key
    simp [truthyStr, String.isEmpty_iff, hdb, hnone, hsome]
  · intro ps ip kv hip hfind
    unfold resolve_pilot_key
    simp [truthyStr, String.isEmpty_iff, hip, hfind]
  · intro ps ip hip hfind
    unfold resolve_pilot_key
    simp [truthyStr, String.isEmpty_iff, hip, hfind, Except.isOk, Except.toBool]
  · intro ps
    unfold resolve_pilot_key
    simp [truthyStr, Except.isOk, Except.toBool]
  · intro ps db ip kv hdb h1 h2 hip hfind
    unfold resolve_pilot_key
    simp [truthyStr, String.isEmpty_iff, hdb, h1, h2, hip, hfind]
  · intro ps db hdb h1 h2
    unfold resolve_pilot_key
    simp [truthyStr, String.isEmpty_iff, hdb, h1, h2, Except.isOk, Except.toBool]
  · intro ps db ip hdb h1 h2 hip hfind
    unfold resolve_pilot_key
    simp [truthyStr, String.isEmpty_iff, hdb, h1, h2, hip, hfind,
      Except.isOk, Except.toBool]

/-- Witness for C5: the direct-match branch applied at the example
registry, plus the prefixed-form example discharged concretely. -/
theorem resolve_pilot_key_spec_witness :
    resolve_pilot_key rpiPilots (some "pilot_rpi_1") none =
      Except.ok "pilot_rpi_1" :=
  resolve_pilot_key_spec.1 rpiPilots "pilot_rpi_1" none (by decide) (by rfl)

/-! ## `orchestrator/RouterGateway.py` — outbox and resend loop

The outbox maps a message id to `(first_sent, message)`.  Time is modelled
in whole seconds; the resend loop wakes every `repeat_interval` seconds.
The Python loop snapshots the outbox, mutates entries via callbacks posted
to the transport thread, and the `CONFIRM` handler pops entries; the
sequential model below treats each loop iteration as one atomic
transformation of the outbox. -/

structure OutMsg where
  id : String
  dst : String   -- `to` in the source; `to` is a Lean keyword
  key : String
  flags : List String
  ttl : Int
deriving Repr, DecidableEq

def repeat_interval : Nat := 5

abbrev Outbox := List (String × Nat × OutMsg)

structure GW where
  gwId : String
  counter : Nat
  outbox : Outbox
deriving Repr

/-- `_prepare`: stamp sender, fresh monotonic id, caller flags.  The
`ttl` initial value comes from the `Message` constructor
(`networking/message.py` is not under `src/`; the spec fixes it only as
an implementation constant ≥ 3 and no claim depends on its value, so it
is a parameter of the model). -/
def prepareMsg (gw : GW) (dst key : String) (flags : List String) (ttl : Int) :
    OutMsg × GW :=
  ({ id := gw.gwId ++ "_" ++ toString gw.counter, dst := dst, key := key,
     flags := flags, ttl := ttl },
   { gw with counter := gw.counter + 1 })

/-- `send(to, key, value, flags=, repeat=)`, outbox part: the prepared
message is recorded in the outbox iff
`repeat ∧ key ≠ "CONFIRM" ∧ "NOREPEAT" ∉ msg.flags`. -/
def gwSend (gw : GW) (dst key : String) (flags : List String) (rep : Bool)
    (ttl : Int) (now : Nat) : OutMsg × GW :=
  let p := prepareMsg gw dst key flags ttl
  let msg := p.1
  let gw := p.2
  if rep ∧ key ≠ "CONFIRM" ∧ msg.flags.contains "NOREPEAT" = false then
    (msg, { gw with outbox := alistSet gw.outbox msg.id (now, msg) })
  else (msg, gw)

/-- Remove every binding of key `c` (`dict.pop(c, None)`; with `alistSet`
insertion the keys are unique, so this is the same operation). -/
def removeKey {κ α : Type} [DecidableEq κ] : List (κ × α) → κ → List (κ × α)
  | [], _ => []
  | (k, v) :: rest, c =>
      if k = c then removeKey rest c else (k, v) :: removeKey rest c

/-- `_l_confirm`: pop the entry whose id is the CONFIRM's value. -/
def gwConfirm (gw : GW) (confirmedId : String) : GW :=
  { gw with outbox := removeKey gw.outbox confirmedId }

/-- One `_repeat_loop` iteration's treatment of a single outbox entry at
time `now`: drop it when `ttl ≤ 0`; when older than
`2 × repeat_interval`, resend, decrement `ttl` and refresh the
first-sent stamp; otherwise leave it alone. -/
def entryStep (now : Nat) (e : Nat × OutMsg) : Option (Nat × OutMsg) :=
  if e.2.ttl ≤ 0 then none
  else if now - e.1 > 2 * repeat_interval then
    some (now, { e.2 with ttl := e.2.ttl - 1 })
  else some e

/-- One `_repeat_loop` iteration over the whole outbox, returning the new
outbox and the expiry warnings logged for dropped entries. -/
def repeatTick (now : Nat) (ob : Outbox) : Outbox × List String :=
  (ob.filterMap (fun kv => (entryStep now kv.2).map (fun e => (kv.1, e))),
   (ob.filter (fun kv => kv.2.2.ttl ≤ 0)).map
     (fun kv => "Message expired id=" ++ kv.1))

/-- The resend loop iterated `n` times, waking every `repeat_interval`
seconds with no intervening CONFIRM. -/
def repeatRun : Nat → Nat → Outbox → Outbox
  | 0, _, ob => ob
  | n + 1, now, ob => repeatRun n (now + repeat_interval) (repeatTick now ob).1

/-- The lifetime of one outbox entry under the iterated resend loop. -/
def entryRun : Nat → Nat → Option (Nat × OutMsg) → Option (Nat × OutMsg)
  | 0, _, e => e
  | n + 1, now, e => entryRun n (now + repeat_interval) (e.bind (entryStep now))

/-! ### Outbox lemmas -/

theorem alistGet_eq_none_of_not_mem {κ α : Type} [DecidableEq κ]
    (d : List (κ × α)) (k : κ) (h : k ∉ d.map Prod.fst) :
    alistGet d k = none := by
  induction d with
  | nil => rfl
  | cons hd tl ih =>
      simp only [List.map_cons, List.mem_cons] at h
      push_neg at h
      have h₁ : ¬ hd.1 = k := fun hh => h.1 hh.symm
      simp [alistGet, h₁, ih h.2]

theorem alistGet_mem {κ α : Type} [DecidableEq κ]
    (d : List (κ × α)) (k : κ) (v : α) (h : alistGet d k = some v) :
    (k, v) ∈ d := by
  induction d with
  | nil => simp [alistGet] at h
  | cons hd tl ih =>
      obtain ⟨k₁, v₁⟩ := hd
      by_cases hk : k₁ = k
      · subst hk
        simp [alistGet] at h
        subst h
        exact List.mem_cons_self _ _
      · simp [alistGet, hk] at h
        exact List.mem_cons_of_mem _ (ih h)

theorem repeatTick_keys_sublist (now : Nat) (ob : Outbox) :
    ((repeatTick now ob).1.map Prod.fst).Sublist (ob.map Prod.fst) := by
  induction ob with
  | nil => simp [repeatTick]
  | cons hd tl ih =>
      simp only [repeatTick, List.filterMap_cons] at ih ⊢
      cases h : entryStep now hd.2 with
      | none => simpa using ih.cons hd.1
      | some e => simpa using ih.cons₂ hd.1

theorem alistGet_repeatTick (now : Nat) (ob : Outbox) (mid : String)
    (hnd : (ob.map Prod.fst).Nodup) :
    alistGet (repeatTick now ob).1 mid = (alistGet ob mid).bind (entryStep now) := by
  induction ob with
  | nil => rfl
  | cons hd tl ih =>
      simp only [List.map_cons, List.nodup_cons] at hnd
      by_cases hk : hd.1 = mid
      · subst hk
        cases h : entryStep now hd.2 with
        | none =>
            simp only [repeatTick, List.filterMap_cons, h, Option.map_none']
            have htl : alistGet tl hd.1 = none :=
              alistGet_eq_none_of_not_mem tl hd.1 hnd.1
            have := ih hnd.2
            simp only [repeatTick] at this
            simp [alistGet, this, htl, h]
        | some e =>
            simp [repeatTick, List.filterMap_cons, h, alistGet, h]
      · cases h : entryStep now hd.2 with
        | none =>
            have := ih hnd.2
            simp only [repeatTick, List.filterMap_cons, h, Option.map_none'] at this ⊢
            simp [alistGet, hk, this]
        | some e =>
            have := ih hnd.2
            simp only [repeatTick, List.filterMap_cons, h] at this ⊢
            simp [alistGet, hk, this]

theorem repeatTick_nodup (now : Nat) (ob : Outbox)
    (hnd : (ob.map Prod.fst).Nodup) :
    ((repeatTick now ob).1.map Prod.fst).Nodup :=
  (repeatTick_keys_sublist now ob).nodup hnd

theorem alistGet_repeatRun (n : Nat) (now : Nat) (ob : Outbox) (mid : String)
    (hnd : (ob.map Prod.fst).Nodup) :
    alistGet (repeatRun n now ob) mid = entryRun n now (alistGet ob mid) := by
  induction n generalizing now ob with
  | zero => rfl
  | succ n ih =>
      simp only [repeatRun, entryRun]
      rw [ih (now + repeat_interval) (repeatTick now ob).1
        (repeatTick_nodup now ob hnd)]
      rw [alistGet_repeatTick now ob mid hnd]

theorem entryRun_none (n now : Nat) : entryRun n now none = none := by
  induction n generalizing now with
  | zero => rfl
  | succ n ih => simp [entryRun, ih]

/-- Termination of a single outbox entry: with the loop waking every
`repeat_interval = 5` seconds and no CONFIRM arriving, the entry is gone
after at most `12 · ttl⁺ + (ts + 11 − now)` further iterations. -/
theorem entryRun_removes (f : Nat) (ts now : Nat) (m : OutMsg)
    (hts : ts ≤ now)
    (hf : 12 * m.ttl.toNat + (ts + 11 - now) < f) :
    entryRun f now (some (ts, m)) = none := by
  induction f generalizing ts now m with
  | zero => omega
  | succ f ih =>
      show entryRun f (now + repeat_interval) (entryStep now (ts, m)) = none
      by_cases h0 : m.ttl ≤ 0
      · have hstep : entryStep now (ts, m) = none := by simp [entryStep, h0]
        rw [hstep]
        exact entryRun_none f (now + repeat_interval)
      · push_neg at h0
        by_cases hage : now - ts > 2 * repeat_interval
        · have hstep : entryStep now (ts, m) =
              some (now, { m with ttl := m.ttl - 1 }) := by
            have hne : ¬ m.ttl ≤ 0 := by omega
            simp [entryStep, hne, hage]
          rw [hstep]
          apply ih now (now + repeat_interval) { m with ttl := m.ttl - 1 }
            (by omega)
          simp only [repeat_interval] at hage ⊢
          omega
        · have hstep : entryStep now (ts, m) = some (ts, m) := by
            have hne : ¬ m.ttl ≤ 0 := by omega
            simp [entryStep, hne, hage]
          rw [hstep]
          apply ih ts (now + repeat_interval) m (by omega)
          simp only [repeat_interval] at hage ⊢
          omega

theorem alistGet_removeKey {κ α : Type} [DecidableEq κ]
    (d : List (κ × α)) (c mid : κ) :
    alistGet (removeKey d c) mid =
      if mid = c then none else alistGet d mid := by
  induction d with
  | nil => simp [alistGet, removeKey]
  | cons hd tl ih =>
      obtain ⟨k₁, v₁⟩ := hd
      by_cases hc : k₁ = c
      · subst hc
        by_cases hm : mid = k₁
        · subst hm
          simp [removeKey, alistGet, ih]
        · have h₂ : ¬ k₁ = mid := fun h => hm h.symm
          simp [removeKey, alistGet, ih, hm, h₂]
      · by_cases hk : k₁ = mid
        · subst hk
          simp [removeKey, alistGet, hc]
        · simp [removeKey, alistGet, hc, hk, ih]

/-- C4: an envelope enters the gateway outbox exactly when sent with
`repeat=true`, `key ≠ CONFIRM` and without `NOREPEAT`; a resend-loop
iteration drops an exhausted entry (`ttl ≤ 0`) with a warning logged,
retransmits each entry older than `2 × repeat_interval` with `ttl`
decremented and the first-sent stamp refreshed, and leaves younger live
entries alone; an entry leaves the outbox exactly when a matching
`CONFIRM` arrives or its `ttl` is exhausted; and under the iterated
resend loop every outbox entry is eventually removed. -/
theorem gateway_outbox_spec :
    (∀ gw dst key flags rep ttl now,
        (rep = true ∧ key ≠ "CONFIRM" ∧ flags.contains "NOREPEAT" = false →
          alistGet (gwSend gw dst key flags rep ttl now).2.outbox
              (gwSend gw dst key flags rep ttl now).1.id =
            some (now, (gwSend gw dst key flags rep ttl now).1)) ∧
        (¬(rep = true ∧ key ≠ "CONFIRM" ∧ flags.contains "NOREPEAT" = false) →
          (gwSend gw dst key flags rep ttl now).2.outbox = gw.outbox)) ∧
    (∀ now ts (m : OutMsg),
        (m.ttl ≤ 0 → entryStep now (ts, m) = none) ∧
        (0 < m.ttl → now - ts > 2 * repeat_interval →
          entryStep now (ts, m) = some (now, { m with ttl := m.ttl - 1 })) ∧
        (0 < m.ttl → ¬(now - ts > 2 * repeat_interval) →
          entryStep now (ts, m) = some (ts, m))) ∧
    (∀ now ob mid, (ob.map Prod.fst).Nodup →
        alistGet (repeatTick now ob).1 mid =
          (alistGet ob mid).bind (entryStep now)) ∧
    (∀ now ob mid ts (m : OutMsg),
        alistGet ob mid = some (ts, m) → m.ttl ≤ 0 →
        ("Message expired id=" ++ mid) ∈ (repeatTick now ob).2) ∧
    (∀ gw c mid, alistGet (gwConfirm gw c).outbox mid =
        if mid = c then none else alistGet gw.outbox mid) ∧
    (∀ ob mid ts (m : OutMsg) now, (ob.map Prod.fst).Nodup →
        alistGet ob mid = some (ts, m) → ts ≤ now →
        alistGet (repeatRun (12 * m.ttl.toNat + 12) now ob) mid = none) := by
  refine ⟨?_, ?_, ?_, ?_, ?_, ?_⟩
  · intro gw dst key flags rep ttl now
    constructor
    · intro h
      simp only [gwSend, prepareMsg]
      rw [if_pos h]
      exact alistGet_alistSet_self _ _ _
    · intro h
      simp only [gwSend, prepareMsg]
      rw [if_neg h]
  · intro now ts m
    refine ⟨?_, ?_, ?_⟩
    · intro h
      simp [entryStep, h]
    · intro h0 hage
      have hne : ¬ m.ttl ≤ 0 := by omega
      simp [entryStep, hne, hage]
    · intro h0 hage
      have hne : ¬ m.ttl ≤ 0 := by omega
      simp [entryStep, hne, hage]
  · intro now ob mid hnd
    exact alistGet_repeatTick now ob mid hnd
  · intro now ob mid ts m hget h0
    have hmem := alistGet_mem ob mid (ts, m) hget
    simp only [repeatTick]
    refine List.mem_map.mpr ⟨(mid, ts, m), ?_, rfl⟩
    refine List.mem_filter.mpr ⟨hmem, ?_⟩
    simpa using h0
  · intro gw c mid
    exact alistGet_removeKey gw.outbox c mid
  · intro ob mid ts m now hnd hget hts
    rw [alistGet_repeatRun _ _ _ _ hnd, hget]
    exact entryRun_removes _ ts now m hts (by omega)

/-- A concrete repeat-eligible envelope for the C4 witness. -/
def witnessMsg : OutMsg :=
  { id := "orch_0", dst := "pilot_alpha", key := "START", flags := [], ttl := 3 }

/-- Witness for C4: a concrete entry with `ttl = 3` first sent at time 0
is gone from the outbox after the bounded number of resend iterations. -/
theorem gateway_outbox_spec_witness :
    alistGet (repeatRun (12 * witnessMsg.ttl.toNat + 12) 0
        [("orch_0", (0, witnessMsg))]) "orch_0" = none :=
  gateway_outbox_spec.2.2.2.2.2 [("orch_0", (0, witnessMsg))] "orch_0" 0
    witnessMsg 0 (by simp) (by rfl) (by decide)

/-! ## `orchestrator_station.py` — backend model and task builders

Backend responses are modelled as finite maps inside an environment; the
failure flags model the exceptions the station catches (or propagates)
around individual backend / gateway / KV calls. -/

/-- Further Python helpers used by the station code. -/
def pyOr (a b : PVal) : PVal := if truthy a then a else b

/-- `d.get(k, default)` — returns the stored value even when it is `None`. -/
def pyGetD (d : Dict) (k : String) (dflt : PVal) : PVal :=
  (alistGet d k).getD dflt

/-- `str(v)` as used on scalar payload fields. -/
def pyStr : PVal → String
  | PVal.vnull => "None"
  | PVal.vbool true => "True"
  | PVal.vbool false => "False"
  | PVal.vnum n => toString n
  | PVal.vstr s => s
  | PVal.vdict _ => "dict"
  | PVal.vlist _ => "list"

def asInt : PVal → Option Int
  | PVal.vnum n => some n
  | _ => none

/-- Python list indexing, including negative-index wrap-around;
`none` is an `IndexError`. -/
def pyListGet {α : Type} (l : List α) (i : Int) : Option α :=
  if 0 ≤ i then l.get? i.toNat
  else if (-i).toNat ≤ l.length then l.get? (l.length - (-i).toNat)
  else none

/-- Order-preserving de-duplication with a `seen` set
(`[s for s in subjects if not (s in seen or seen.add(s))]`). -/
def dedupAux (seen : List String) : List String → List String
  | [] => []
  | x :: xs =>
      if seen.contains x then dedupAux seen xs
      else x :: dedupAux (x :: seen) xs

/-- Backend pilot row (`GET /pilots/{id}`): `pilot.get("name")` /
`pilot.get("ip")`. -/
structure BPilot where
  bname : Option String    -- "name" in the source
  ip : Option String
deriving Repr

/-- `run.get("overrides")`: `{global: {...}, steps: {...}}`.  The `steps`
mapping is looked up both by `str(step_idx)` and by the integer itself in
the source; both key spaces are carried. -/
structure Ovr where
  globalOv : Dict
  stepsS : List (String × Dict)
  stepsI : List (Int × Dict)
deriving Repr

/-- Backend session-run row, as consumed by the station. -/
structure RunMeta where
  rid : Int                -- "id" in the source
  session_id : Int
  pilot_id : Int
  subject_key : String
  overrides : Option Ovr
deriving Repr

structure Step where
  task_type : String
  step_name : String
  params : Dict
deriving Repr

structure Protocol where
  steps : List Step
deriving Repr

structure AdvanceResp where
  finished : Bool
  current_step : Int
deriving Repr

/-- Environment of backend responses and failure switches for one station
operation.  Each `…Raises` flag makes the corresponding external call
raise; `hasRedis` is whether a KV client was configured. -/
structure Env where
  runs : List (Int × RunMeta)              -- get_run
  pilots : List (Int × BPilot)             -- get_pilot
  sessions : List (Int × List Dict)        -- get_subject_runs_for_session
  protocols : List (Int × Protocol)        -- get_protocol
  progressOf : List (Int × Dict)           -- "progress" of get_run_with_progress
  progressRaises : Bool                    -- get_run_with_progress raises
  runsBySubject : List (String × RunMeta)  -- get_run_by_subject_key
  runBySubjectRaises : Bool
  advanceStepResp : List (Int × AdvanceResp)
  sendRaises : Bool                        -- gateway.send raises (RuntimeError)
  markRunningRaises : Bool
  markErrorRaises : Bool
  stopSessionRaises : Bool
  hasRedis : Bool
  nowIso : String                          -- datetime.now(...).isoformat()
deriving Repr

/-- Externally visible calls made by the station, in order.  The `ok`
flag records whether the call itself raised. -/
inductive Event where
  | gwSendEvt (dst key : String) (payload : Option Dict) (ok : Bool)
  | markRunError (run_id : Int) (error_type : String) (ok : Bool)
  | markRunRunning (run_id : Int) (ok : Bool)
  | stopSessionRun (run_id : Int) (ok : Bool)
  | completeSessionRun (run_id : Int)
  | setActiveRunEvt (pilot : String) (run : PVal)
  | redisSetActiveRun (pilot : String) (run : Option PVal)
deriving Repr

/-- `_apply_overrides`: `task.update(overrides.global)`, then
`task.update(overrides.steps[str(step_idx)] or overrides.steps[step_idx] or {})`. -/
def pyOrD (x : Option Dict) (y : Dict) : Dict :=
  match x with
  | some d => if d.isEmpty then y else d
  | none => y

def _apply_overrides (task : Dict) (runRow : RunMeta) (step_idx : Int) : Dict :=
  let ov := runRow.overrides.getD ⟨[], [], []⟩
  let global_ov := ov.globalOv
  let step_ov := pyOrD (alistGet ov.stepsS (toString step_idx))
    (pyOrD (alistGet ov.stepsI step_idx) [])
  dictUpdate (dictUpdate task global_ov) step_ov

/-- `_build_step_task(run, step_idx)`: step params plus reserved keys,
overrides folded in, then the re-assert block (`task_type`, `step_name`,
`pilot`, `subject`, `session`, `step`, `run_id`, `protocol_id` — and not
`current_trial`). -/
def _build_step_task (env : Env) (run : RunMeta) (step_idx : Int) :
    Except PyErr Dict :=
  let session_id := run.session_id
  let subject_key := run.subject_key
  match (alistGet env.sessions session_id).getD [] with
  | [] => Except.error ⟨PyErrKind.indexError, "runs[0]"⟩
  | proto_run :: _ =>
    match asInt (pyGet proto_run "protocol_id") with
    | none => Except.error ⟨PyErrKind.keyError, "protocol_id"⟩
    | some pid =>
      match alistGet env.protocols pid with
      | none => Except.error ⟨PyErrKind.typeError, "protocol is None"⟩
      | some protocol =>
        match pyListGet protocol.steps step_idx with
        | none => Except.error ⟨PyErrKind.indexError, "steps[step_idx]"⟩
        | some step =>
          match alistGet env.pilots run.pilot_id with
          | none => Except.error ⟨PyErrKind.typeError, "pilot is None"⟩
          | some pilot =>
            match pilot.bname with
            | none => Except.error ⟨PyErrKind.keyError, "name"⟩
            | some pname =>
              let task := step.params
              let task := alistSet task "task_type" (PVal.vstr step.task_type)
              let task := alistSet task "step_name" (PVal.vstr step.step_name)
              let task := alistSet task "pilot" (PVal.vstr pname)
              let task := alistSet task "subject" (PVal.vstr subject_key)
              let task := alistSet task "step" (PVal.vnum step_idx)
              let task := alistSet task "current_trial" (PVal.vnum 0)
              let task := alistSet task "session" (PVal.vnum session_id)
              let task := alistSet task "run_id" (PVal.vnum run.rid)
              let task := alistSet task "protocol_id" (PVal.vnum pid)
              let task := _apply_overrides task run step_idx
              let task := alistSet task "task_type" (PVal.vstr step.task_type)
              let task := alistSet task "step_name" (PVal.vstr step.step_name)
              let task := alistSet task "pilot" (PVal.vstr pname)
              let task := alistSet task "subject" (PVal.vstr subject_key)
              let task := alistSet task "session" (PVal.vnum session_id)
              let task := alistSet task "step" (PVal.vnum step_idx)
              let task := alistSet task "run_id" (PVal.vnum run.rid)
              let task := alistSet task "protocol_id" (PVal.vnum pid)
              Except.ok task

/-- `_build_first_step_task(run)`: the separate, near-identical
step-0 builder. -/
def _build_first_step_task (env : Env) (run : RunMeta) : Except PyErr Dict :=
  _build_step_task env run 0

/-- `str(name)` extraction for one subject-run row, tolerating the
nested-dict forms. -/
def subjectNameOf (r : Dict) : PVal :=
  let name := pyOr (pyGet r "subject_name")
    (pyOr (pyGet r "subject_key") (pyGet r "subject"))
  match name with
  | PVal.vdict d =>
      pyOr (pyGet d "name") (pyOr (pyGet d "key") (pyGet d "subject_key"))
  | v => v

/-- Progress-input normalization step of `_attach_session_context`. -/
def normalizeProgress (progress : Option Dict) : Dict :=
  match progress with
  | none => []
  | some p =>
      match alistGet p "progress" with
      | some (PVal.vdict inner) => inner
      | _ => p

/-- `_attach_session_context(task, runMeta=, proto_runs=, progress=)`:
force `session_progress_index` (tolerating older field names) and a
deduplicated `subjects` list onto the payload. -/
def _attach_session_context (task : Dict) (proto_runs : Option (List Dict))
    (progress : Option Dict) : Dict :=
  let prog := normalizeProgress progress
  let spi := pyOr (pyGet prog "session_progress_index")
    (pyOr (pyGet prog "session_run_index")
      (pyOr (pyGet prog "run_index") (pyGet prog "index")))
  let task := alistSet task "session_progress_index" spi
  let subjects :=
    match proto_runs with
    | none => []
    | some rs => rs.filterMap (fun r =>
        let name := subjectNameOf r
        if truthy name then some (pyStr name) else none)
  let subjects := dedupAux [] subjects
  alistSet task "subjects" (PVal.vlist (subjects.map PVal.vstr))

/-! ## `orchestrator_station.py` — run control -/

/-- Steps 1–3 of `start_run` (and the protocol-id read of step 3): fetch
run, fetch pilot, resolve the transport key, fetch the session's subject
runs.  A run the backend does not know surfaces as a 404 from
`GET /session-runs/{id}` (src/api/main.py), which `MicsApiClient._get`'s
`raise_for_status()` raises as `requests.HTTPError` — so the station's
`if not run_meta: raise ValueError` line is unreachable with this
repository's backend and a missing run is an `httpError`.  A missing
pilot likewise raises before the `RuntimeError` check; both are
non-`ValueError`, so the distinction does not affect the API status.
An unresolved key is the registry's `KeyError`; an empty subject-run
list a `RuntimeError`. -/
def startRunLookups (env : Env) (st : Pilots) (run_id : Int) :
    Except PyErr (RunMeta × BPilot × String × List Dict × Int) :=
  match alistGet env.runs run_id with
  | none => Except.error ⟨PyErrKind.httpError, "404 Not Found"⟩
  | some runMeta =>
    match alistGet env.pilots runMeta.pilot_id with
    | none => Except.error ⟨PyErrKind.runtimeError, "Pilot not found"⟩
    | some pilot =>
      match resolve_pilot_key st pilot.bname pilot.ip with
      | Except.error e => Except.error e
      | Except.ok pilot_key =>
        match (alistGet env.sessions runMeta.session_id).getD [] with
        | [] => Except.error ⟨PyErrKind.runtimeError, "no SubjectProtocolRun"⟩
        | proto_run :: rest =>
          match asInt (pyGet proto_run "protocol_id") with
          | none => Except.error ⟨PyErrKind.keyError, "protocol_id"⟩
          | some protocol_id =>
            Except.ok (runMeta, pilot, pilot_key, proto_run :: rest, protocol_id)

/-- The progress dict of steps 4: `get_run_with_progress`, exceptions
swallowed to `{}`, `(payload or {}).get("progress") or {}`. -/
def startRunProgress (env : Env) (run_id : Int) : Dict :=
  if env.progressRaises then []
  else (alistGet env.progressOf run_id).getD []

/-- Steps 4–5 plus the payload decoration of `start_run`: build the task
from existing progress (resume) or from step 0, then force `run_id`,
`pilot`, `subject`, session context, `subjects` and
`session_progress_index` onto it. -/
def startRunTask (env : Env) (run_id : Int) (runMeta : RunMeta)
    (pilot : BPilot) (proto_runs : List Dict) : Except PyErr Dict :=
  let prog := startRunProgress env run_id
  let taskE :=
    if !prog.isEmpty && !isNull (pyGet prog "current_step") then
      match asInt (pyGet prog "current_step") with
      | none => Except.error ⟨PyErrKind.typeError, "current_step"⟩
      | some step_idx =>
          (_build_step_task env runMeta step_idx).map
            (fun t => alistSet t "current_trial"
              (pyGetD prog "current_trial" (PVal.vnum 0)))
    else
      (_build_first_step_task env runMeta).map
        (fun t => alistSet t "current_trial" (PVal.vnum 0))
  match taskE with
  | Except.error e => Except.error e
  | Except.ok task =>
    let task := alistSet task "run_id" (PVal.vnum runMeta.rid)
    let task := alistSet task "pilot"
      (match pilot.bname with
       | some s => PVal.vstr s
       | none => PVal.vnull)
    let task := alistSet task "subject" (PVal.vstr runMeta.subject_key)
    let task := _attach_session_context task (some proto_runs) (some prog)
    let task := alistSet task "subjects" (pyOr (pyGet task "subjects") (PVal.vlist []))
    let task := alistSet task "session_progress_index" (pyGet task "session_progress_index")
    Except.ok task

/-- The `active_run` record written on success. -/
def activeRunOf (env : Env) (runMeta : RunMeta) : PVal :=
  PVal.vdict [("id", PVal.vnum runMeta.rid),
              ("session_id", PVal.vnum runMeta.session_id),
              ("subject_key", PVal.vstr runMeta.subject_key),
              ("started_at", PVal.vstr env.nowIso),
              ("status", PVal.vstr "running")]

/-- `start_run(run_id)`: returns the ordered trace of external calls, the
final registry, and the normal/raised outcome.  The gateway's own `send`
raises only `RuntimeError`s (both raise sites in `RouterGateway.send`). -/
def start_run (env : Env) (st : Pilots) (run_id : Int) :
    List Event × Pilots × Except PyErr Unit :=
  match startRunLookups env st run_id with
  | Except.error e => ([], st, Except.error e)
  | Except.ok (runMeta, pilot, pilot_key, proto_runs, _protocol_id) =>
    match startRunTask env run_id runMeta pilot proto_runs with
    | Except.error e => ([], st, Except.error e)
    | Except.ok task =>
      if env.sendRaises then
        ([Event.gwSendEvt pilot_key "START" (some task) false,
          Event.markRunError run_id "OrchGatewayError" (!env.markErrorRaises),
          Event.setActiveRunEvt pilot_key PVal.vnull] ++
           (if env.hasRedis then [Event.redisSetActiveRun pilot_key none] else []),
         set_active_run st pilot_key PVal.vnull,
         Except.error ⟨PyErrKind.runtimeError, "gateway send failed"⟩)
      else
        let active_run := activeRunOf env runMeta
        ([Event.gwSendEvt pilot_key "START" (some task) true,
          Event.markRunRunning run_id (!env.markRunningRaises),
          Event.setActiveRunEvt pilot_key active_run] ++
           (if env.hasRedis then [Event.redisSetActiveRun pilot_key (some active_run)] else []),
         set_active_run st pilot_key active_run,
         Except.ok ())

/-- `stop_run(run_id)`.  As in `startRunLookups`, a run unknown to the
backend raises `requests.HTTPError` (backend 404) before the
`ValueError` check can fire. -/
def stop_run (env : Env) (st : Pilots) (run_id : Int) :
    List Event × Pilots × Except PyErr Unit :=
  match alistGet env.runs run_id with
  | none => ([], st, Except.error ⟨PyErrKind.httpError, "404 Not Found"⟩)
  | some run =>
    match alistGet env.pilots run.pilot_id with
    | none => ([], st, Except.error ⟨PyErrKind.runtimeError, "Pilot not found"⟩)
    | some pilot =>
      match resolve_pilot_key st pilot.bname pilot.ip with
      | Except.error e => ([], st, Except.error e)
      | Except.ok pilot_key =>
        if env.sendRaises then
          ([Event.gwSendEvt pilot_key "STOP" none false,
            Event.markRunError run_id "OrchGatewayError" (!env.markErrorRaises),
            Event.setActiveRunEvt pilot_key PVal.vnull] ++
             (if env.hasRedis then [Event.redisSetActiveRun pilot_key none] else []),
           set_active_run st pilot_key PVal.vnull,
           Except.error ⟨PyErrKind.runtimeError, "gateway send failed"⟩)
        else
          ([Event.gwSendEvt pilot_key "STOP" none true,
            Event.stopSessionRun run_id (!env.stopSessionRaises),
            Event.setActiveRunEvt pilot_key PVal.vnull] ++
             (if env.hasRedis then [Event.redisSetActiveRun pilot_key none] else []),
           set_active_run st pilot_key PVal.vnull,
           Except.ok ())

/-! ## `orchestrator/api.py` — control API status mapping

`POST /runs/{id}/start` and `/stop`: `ValueError → 400`, any other
exception `→ 500`, success `→ 200`. -/

def http_start_run (env : Env) (st : Pilots) (run_id : Int) : Nat :=
  match (start_run env st run_id).2.2 with
  | Except.ok _ => 200
  | Except.error e => if e.kind = PyErrKind.valueError then 400 else 500

def http_stop_run (env : Env) (st : Pilots) (run_id : Int) : Nat :=
  match (stop_run env st run_id).2.2 with
  | Except.ok _ => 200
  | Except.error e => if e.kind = PyErrKind.valueError then 400 else 500

/-! ## `orchestrator_station.py` — inbound handlers -/

/-- Effects of the bounded-queue handlers.  `incDropCounter` is the
effect the spec postulates for a full queue; it is part of the effect
vocabulary so its absence from every handler trace is expressible. -/
inductive QEffect where
  | enqueuedData (v : PVal)
  | warnDataFull
  | enqueuedTrial (v : PVal)
  | warnTrialFull
  | incDropCounter
deriving Repr

def queue_maxsize : Nat := 50000

/-- `queue.put_nowait`: fail immediately (no blocking) when full. -/
def put_nowait (cap : Nat) (q : List PVal) (v : PVal) : Option (List PVal) :=
  if q.length ≥ cap then none else some (q ++ [v])

/-- `on_data` (handler for DATA/CONTINUOUS/STREAM): `put_nowait` of a
deep copy (identity in a pure model); on `queue.Full`, log a warning and
drop. -/
def on_data (dq : List PVal) (v : PVal) : List PVal × List QEffect :=
  match put_nowait queue_maxsize dq v with
  | some q => (q, [QEffect.enqueuedData v])
  | none => (dq, [QEffect.warnDataFull])

/-- `on_inc_trial` (handler for INC_TRIAL_COUNTER). -/
def on_inc_trial (tq : List PVal) (v : PVal) : List PVal × List QEffect :=
  match put_nowait queue_maxsize tq v with
  | some q => (q, [QEffect.enqueuedTrial v])
  | none => (tq, [QEffect.warnTrialFull])

/-- `on_task_error(msg)`: hard-stop the pilot; resolve the run by
subject key (exceptions swallowed); without a run, clear the local
registry slot and return; with one, mark it error in the backend and
clear both the registry and the KV mirror. -/
def on_task_error (env : Env) (st : Pilots) (sender : String) (payload : Dict) :
    List Event × Pilots × Except PyErr Unit :=
  let pilot_key := pyStr (pyOr (pyGet payload "pilot") (PVal.vstr sender))
  let subject_key := pyGet payload "subject"
  if env.sendRaises then
    ([Event.gwSendEvt pilot_key "STOP" none false], st,
     Except.error ⟨PyErrKind.runtimeError, "gateway send failed"⟩)
  else
    let tr := [Event.gwSendEvt pilot_key "STOP" none true]
    let run : Option RunMeta :=
      if truthy subject_key then
        if env.runBySubjectRaises then none
        else alistGet env.runsBySubject (pyStr subject_key)
      else none
    match run with
    | none =>
        (tr ++ [Event.setActiveRunEvt pilot_key PVal.vnull],
         set_active_run st pilot_key PVal.vnull, Except.ok ())
    | some run =>
        if env.markErrorRaises then
          (tr ++ [Event.markRunError run.rid "TaskError" false], st,
           Except.error ⟨PyErrKind.runtimeError, "mark_run_error failed"⟩)
        else
          (tr ++ [Event.markRunError run.rid "TaskError" true,
                  Event.setActiveRunEvt pilot_key PVal.vnull] ++
             (if env.hasRedis then [Event.redisSetActiveRun pilot_key none] else []),
           set_active_run st pilot_key PVal.vnull, Except.ok ())

/-- `_advance_run_step(run)`: stop the pilot, advance the backend step,
complete or start the next step.  The post-advance `START` payload is the
step task as built (`current_trial` is not reset here). -/
def _advance_run_step (env : Env) (st : Pilots) (run : RunMeta) :
    List Event × Pilots × Except PyErr Unit :=
  match alistGet env.pilots run.pilot_id with
  | none => ([], st, Except.error ⟨PyErrKind.typeError, "pilot is None"⟩)
  | some pilot =>
    match resolve_pilot_key st pilot.bname pilot.ip with
    | Except.error e => ([], st, Except.error e)
    | Except.ok pilot_key =>
      if env.sendRaises then
        ([Event.gwSendEvt pilot_key "STOP" none false], st,
         Except.error ⟨PyErrKind.runtimeError, "gateway send failed"⟩)
      else
        let tr := [Event.gwSendEvt pilot_key "STOP" none true]
        match alistGet env.advanceStepResp run.rid with
        | none => (tr, st, Except.error ⟨PyErrKind.runtimeError, "advance_step"⟩)
        | some resp =>
          if resp.finished then
            (tr ++ [Event.completeSessionRun run.rid,
                    Event.setActiveRunEvt pilot_key PVal.vnull] ++
               (if env.hasRedis then [Event.redisSetActiveRun pilot_key none] else []),
             set_active_run st pilot_key PVal.vnull, Except.ok ())
          else
            match _build_step_task env run resp.current_step with
            | Except.error e => (tr, st, Except.error e)
            | Except.ok next_task =>
              let prog := startRunProgress env run.rid
              let proto_runs := (alistGet env.sessions run.session_id).getD []
              let next_task := _attach_session_context next_task (some proto_runs) (some prog)
              let next_task := alistSet next_task "subjects"
                (pyOr (pyGet next_task "subjects") (PVal.vlist []))
              let next_task := alistSet next_task "session_progress_index"
                (pyGet next_task "session_progress_index")
              (tr ++ [Event.gwSendEvt pilot_key "START" (some next_task) true],
               st, Except.ok ())

/-! ## Shared helper lemmas about the station model -/

/-- After `set_active_run(p, v)` the registry reports a record for `p`
whose `active_run` is `v`. -/
theorem get_pilot_set_active_run (st : Pilots) (pk : String) (v : PVal) :
    ∃ rec, get_pilot (set_active_run st pk v) pk = some rec ∧
      pyGet rec "active_run" = v := by
  refine ⟨alistSet ((alistGet st pk).getD []) "active_run" v, ?_, ?_⟩
  · simp only [set_active_run, get_pilot, alistGet_alistSet_self]
    have hne := alistSet_ne_nil ((alistGet st pk).getD []) "active_run" v
    simp [List.isEmpty_iff, hne]
  · unfold pyGet
    rw [alistGet_alistSet_self]
    rfl

/-- Shared concrete backend fixture: run 7 of session 3 on pilot 2
(`alpha`), single-step protocol 1. -/
def rm7 : RunMeta :=
  { rid := 7, session_id := 3, pilot_id := 2, subject_key := "bp_s3_r7",
    overrides := none }

def pilotAlpha : BPilot := { bname := some "alpha", ip := some "10.0.0.5" }

def protoRow : Dict :=
  [("protocol_id", PVal.vnum 1), ("subject_key", PVal.vstr "bp_s3_r7")]

def step0 : Step :=
  { task_type := "freeRun", step_name := "s0", params := [("p", PVal.vnum 1)] }

def envHappy : Env :=
  { runs := [(7, rm7)],
    pilots := [(2, pilotAlpha)],
    sessions := [(3, [protoRow])],
    protocols := [(1, { steps := [step0] })],
    progressOf := [],
    progressRaises := false,
    runsBySubject := [],
    runBySubjectRaises := false,
    advanceStepResp := [],
    sendRaises := false,
    markRunningRaises := false,
    markErrorRaises := false,
    stopSessionRaises := false,
    hasRedis := true,
    nowIso := "2026-01-01T00:00:00+00:00" }

/-- Registry with pilot `alpha` handshaken. -/
def stAlpha : Pilots := [("alpha", [("ip", PVal.vstr "10.0.0.5")])]

/-! ## Claim theorems about the run controller -/

/-- C2: in every prefix of `start_run`'s external-call trace, a
`mark_run_running` call is preceded by the `START` envelope having been
handed to the gateway — the backend is never told `running` before the
send was attempted. -/
theorem start_precedes_mark_running
    (env : Env) (st : Pilots) (run_id : Int) (n : Nat) (rid : Int) (ok : Bool)
    (hmem : Event.markRunRunning rid ok ∈ (start_run env st run_id).1.take n) :
    ∃ pk task okb, Event.gwSendEvt pk "START" (some task) okb ∈
      (start_run env st run_id).1.take n := by
  unfold start_run at hmem ⊢
  cases hL : startRunLookups env st run_id with
  | error e => rw [hL] at hmem; simp at hmem
  | ok tup =>
    obtain ⟨rm, pilot, pk, prs, pid⟩ := tup
    cases hT : startRunTask env run_id rm pilot prs with
    | error e => simp only [hL, hT] at hmem; simp at hmem
    | ok task =>
      simp only [hL, hT] at hmem ⊢
      by_cases hs : env.sendRaises = true
      · simp only [hs, if_true] at hmem ⊢
        cases n with
        | zero => simp at hmem
        | succ n => exact ⟨pk, task, false, by simp⟩
      · simp only [hs, if_false, Bool.false_eq_true] at hmem ⊢
        cases n with
        | zero => simp at hmem
        | succ n => exact ⟨pk, task, true, by simp⟩

/-- Witness for C2 at the concrete fixture (successful `start_run`). -/
theorem start_precedes_mark_running_witness :
    ∃ pk task okb, Event.gwSendEvt pk "START" (some task) okb ∈
      (start_run envHappy stAlpha 7).1.take 2 :=
  start_precedes_mark_running envHappy stAlpha 7 2 7 true
    (List.Mem.tail _ (List.Mem.head _))

/-- C9 (amended): the DATA/CONTINUOUS/STREAM and INC_TRIAL_COUNTER
handlers enqueue with `put_nowait`: below capacity the event is appended;
at capacity the enqueue fails immediately, the event is dropped, and a
warning is logged — no drop-counter exists, so none is incremented. -/
theorem queue_handlers_never_block :
    (∀ q v, q.length < queue_maxsize →
        on_data q v = (q ++ [v], [QEffect.enqueuedData v])) ∧
    (∀ q v, q.length ≥ queue_maxsize →
        on_data q v = (q, [QEffect.warnDataFull])) ∧
    (∀ q v, q.length < queue_maxsize →
        on_inc_trial q v = (q ++ [v], [QEffect.enqueuedTrial v])) ∧
    (∀ q v, q.length ≥ queue_maxsize →
        on_inc_trial q v = (q, [QEffect.warnTrialFull])) ∧
    (∀ q v, QEffect.incDropCounter ∉ (on_data q v).2 ∧
        QEffect.incDropCounter ∉ (on_inc_trial q v).2) := by
  refine ⟨?_, ?_, ?_, ?_, ?_⟩ <;> intro q v
  · intro h
    simp [on_data, put_nowait, Nat.not_le.mpr h]
  · intro h
    simp [on_data, put_nowait, h]
  · intro h
    simp [on_inc_trial, put_nowait, Nat.not_le.mpr h]
  · intro h
    simp [on_inc_trial, put_nowait, h]
  · constructor
    · unfold on_data
      cases put_nowait queue_maxsize q v <;> simp
    · unfold on_inc_trial
      cases put_nowait queue_maxsize q v <;> simp

/-- Witness for C9's amended theorem: enqueue into an empty queue. -/
theorem queue_handlers_never_block_witness :
    on_data [] (PVal.vnum 1) = ([PVal.vnum 1], [QEffect.enqueuedData (PVal.vnum 1)]) :=
  queue_handlers_never_block.1 [] (PVal.vnum 1) (by decide)

/-- A full data/trial queue (50 000 events). -/
def fullQ : List PVal := List.replicate queue_maxsize PVal.vnull

theorem on_data_full (q : List PVal) (v : PVal) (h : q.length ≥ queue_maxsize) :
    on_data q v = (q, [QEffect.warnDataFull]) := by
  unfold on_data put_nowait
  rw [if_pos h]

theorem on_inc_trial_full (q : List PVal) (v : PVal) (h : q.length ≥ queue_maxsize) :
    on_inc_trial q v = (q, [QEffect.warnTrialFull]) := by
  unfold on_inc_trial put_nowait
  rw [if_pos h]

theorem fullQ_length : fullQ.length ≥ queue_maxsize := by
  unfold fullQ
  rw [List.length_replicate]

/-- Counterexample for C9 as stated: on a full queue the handlers drop
the event and log a warning, but no drop-counter increment occurs — the
claimed drop-counter does not exist in the code. -/
theorem queue_drop_counter_counterexample :
    (on_data fullQ (PVal.vstr "evt")).2 = [QEffect.warnDataFull] ∧
    (on_data fullQ (PVal.vstr "evt")).1 = fullQ ∧
    QEffect.incDropCounter ∉ (on_data fullQ (PVal.vstr "evt")).2 ∧
    (on_inc_trial fullQ (PVal.vstr "evt")).2 = [QEffect.warnTrialFull] ∧
    QEffect.incDropCounter ∉ (on_inc_trial fullQ (PVal.vstr "evt")).2 := by
  rw [on_data_full fullQ (PVal.vstr "evt") fullQ_length,
    on_inc_trial_full fullQ (PVal.vstr "evt") fullQ_length]
  refine ⟨rfl, rfl, by simp, rfl, by simp⟩

/-- C10: `on_task_error` with a payload whose `subject` is missing (or
whose subject does not resolve to a backend run) still sends `STOP` to
the pilot and clears the registry `active_run`, but makes no
`mark_run_error` call and writes nothing to the KV mirror. -/
theorem task_error_without_run
    (env : Env) (st : Pilots) (sender : String) (payload : Dict)
    (hsend : env.sendRaises = false)
    (hnorun : truthy (pyGet payload "subject") = false ∨
      env.runBySubjectRaises = true ∨
      alistGet env.runsBySubject (pyStr (pyGet payload "subject")) = none) :
    (on_task_error env st sender payload).1 =
      [Event.gwSendEvt (pyStr (pyOr (pyGet payload "pilot") (PVal.vstr sender)))
         "STOP" none true,
       Event.setActiveRunEvt
         (pyStr (pyOr (pyGet payload "pilot") (PVal.vstr sender))) PVal.vnull] ∧
    (on_task_error env st sender payload).2.1 =
      set_active_run st
        (pyStr (pyOr (pyGet payload "pilot") (PVal.vstr sender))) PVal.vnull ∧
    (on_task_error env st sender payload).2.2 = Except.ok () ∧
    (∀ rid et ok, Event.markRunError rid et ok ∉ (on_task_error env st sender payload).1) ∧
    (∀ p r, Event.redisSetActiveRun p r ∉ (on_task_error env st sender payload).1) ∧
    (∃ rec, get_pilot (on_task_error env st sender payload).2.1
        (pyStr (pyOr (pyGet payload "pilot") (PVal.vstr sender))) = some rec ∧
      pyGet rec "active_run" = PVal.vnull) := by
  have hrun : (if truthy (pyGet payload "subject") then
      (if env.runBySubjectRaises then none
       else alistGet env.runsBySubject (pyStr (pyGet payload "subject")))
      else (none : Option RunMeta)) = none := by
    rcases hnorun with h | h | h <;> simp [h]
  have heq : on_task_error env st sender payload =
      ([Event.gwSendEvt (pyStr (pyOr (pyGet payload "pilot") (PVal.vstr sender)))
          "STOP" none true,
        Event.setActiveRunEvt
          (pyStr (pyOr (pyGet payload "pilot") (PVal.vstr sender))) PVal.vnull],
       set_active_run st
         (pyStr (pyOr (pyGet payload "pilot") (PVal.vstr sender))) PVal.vnull,
       Except.ok ()) := by
    unfold on_task_error
    rw [hsend]
    simp only [Bool.false_eq_true, if_false, hrun, List.singleton_append]
  refine ⟨by rw [heq], by rw [heq], by rw [heq], ?_, ?_, ?_⟩
  · intro rid et ok
    rw [heq]
    simp
  · intro p r
    rw [heq]
    simp
  · rw [heq]
    exact get_pilot_set_active_run st _ PVal.vnull

/-- Witness for C10: a `TASK_ERROR` whose payload carries no subject. -/
theorem task_error_without_run_witness :
    (on_task_error envHappy stAlpha "alpha"
        [("pilot", PVal.vstr "alpha"), ("error_message", PVal.vstr "boom")]).1 =
      [Event.gwSendEvt "alpha" "STOP" none true,
       Event.setActiveRunEvt "alpha" PVal.vnull] ∧
    (on_task_error envHappy stAlpha "alpha"
        [("pilot", PVal.vstr "alpha"), ("error_message", PVal.vstr "boom")]).2.2 =
      Except.ok () :=
  let h := task_error_without_run envHappy stAlpha "alpha"
    [("pilot", PVal.vstr "alpha"), ("error_message", PVal.vstr "boom")]
    (by rfl) (Or.inl (by rfl))
  ⟨h.1, h.2.2.1⟩

/-- The registry only ever raises `KeyError` from `resolve_pilot_key`. -/
theorem resolve_pilot_key_err_kind (st : Pilots) (a b : Option String)
    (e : PyErr) (h : resolve_pilot_key st a b = Except.error e) :
    e.kind = PyErrKind.keyError := by
  unfold resolve_pilot_key at h
  split at h
  · simp at h
  · split at h
    · simp at h
    · split at h
      · split at h
        · simp at h
        · simp only [Except.error.injEq] at h
          rw [← h]
      · simp only [Except.error.injEq] at h
        rw [← h]

/-- C8 (amended): both control routes answer only 200, 400 (the
`ValueError` handler, which no failure of this backend actually reaches)
or 500; a run unknown to the backend surfaces as `requests.HTTPError`
(backend 404 via `raise_for_status`) and maps to HTTP 500, as do a
missing pilot, an unresolved pilot identity and internal errors; no path
of the control API produces 404. -/
theorem api_status_mapping :
    (∀ env st rid, http_start_run env st rid = 200 ∨
        http_start_run env st rid = 400 ∨ http_start_run env st rid = 500) ∧
    (∀ env st rid, http_stop_run env st rid = 200 ∨
        http_stop_run env st rid = 400 ∨ http_stop_run env st rid = 500) ∧
    (∀ env st rid, alistGet env.runs rid = none →
        http_start_run env st rid = 500 ∧ http_stop_run env st rid = 500) ∧
    (∀ env st rid rm p e, alistGet env.runs rid = some rm →
        alistGet env.pilots rm.pilot_id = some p →
        resolve_pilot_key st p.bname p.ip = Except.error e →
        http_start_run env st rid = 500 ∧ http_stop_run env st rid = 500) ∧
    (∀ env st rid, http_start_run env st rid ≠ 404 ∧
        http_stop_run env st rid ≠ 404) := by
  have hstart : ∀ env st rid, http_start_run env st rid = 200 ∨
      http_start_run env st rid = 400 ∨ http_start_run env st rid = 500 := by
    intro env st rid
    unfold http_start_run
    cases h : (start_run env st rid).2.2 with
    | ok _ => exact Or.inl rfl
    | error e =>
        by_cases hk : e.kind = PyErrKind.valueError
        · exact Or.inr (Or.inl (by simp [hk]))
        · exact Or.inr (Or.inr (by simp [hk]))
  have hstop : ∀ env st rid, http_stop_run env st rid = 200 ∨
      http_stop_run env st rid = 400 ∨ http_stop_run env st rid = 500 := by
    intro env st rid
    unfold http_stop_run
    cases h : (stop_run env st rid).2.2 with
    | ok _ => exact Or.inl rfl
    | error e =>
        by_cases hk : e.kind = PyErrKind.valueError
        · exact Or.inr (Or.inl (by simp [hk]))
        · exact Or.inr (Or.inr (by simp [hk]))
  refine ⟨hstart, hstop, ?_, ?_, ?_⟩
  · intro env st rid h
    constructor
    · unfold http_start_run start_run startRunLookups
      rw [h]
      rfl
    · unfold http_stop_run stop_run
      rw [h]
      rfl
  · intro env st rid rm p e h1 h2 h3
    have hk := resolve_pilot_key_err_kind st p.bname p.ip e h3
    have hkv : ¬ e.kind = PyErrKind.valueError := by
      rw [hk]
      intro hcon
      cases hcon
    constructor
    · unfold http_start_run start_run startRunLookups
      simp only [h1, h2, h3]
      simp [hkv]
    · unfold http_stop_run stop_run
      simp only [h1, h2, h3]
      simp [hkv]
  · intro env st rid
    constructor
    · rcases hstart env st rid with h | h | h <;> omega
    · rcases hstop env st rid with h | h | h <;> omega

/-- Run 9 assigned to backend pilot 2, used with an empty registry for
the C8 counterexample (unresolvable transport identity). -/
def envC8 : Env :=
  { envHappy with
    runs := [(9, { rid := 9, session_id := 3, pilot_id := 2,
                   subject_key := "bp_s3_r9", overrides := none })] }

/-- Counterexample for C8 as stated: an unresolved pilot identity and a
run the backend does not know (backend 404 → `requests.HTTPError`) both
yield HTTP 500 from the control API, never the 404 the claim requires —
the control API has no 404 mapping. -/
theorem api_404_counterexample :
    http_start_run envC8 [] 9 = 500 ∧
    http_stop_run envC8 [] 9 = 500 ∧
    http_start_run { envC8 with runs := [] } [] 9 = 500 ∧
    http_stop_run { envC8 with runs := [] } [] 9 = 500 ∧
    (500 : Nat) ≠ 404 := by
  refine ⟨rfl, rfl, rfl, rfl, by decide⟩

/-- Witness for C8's amended theorem at the concrete fixture. -/
theorem api_status_mapping_witness :
    http_start_run { envC8 with runs := [] } [] 9 = 500 ∧
    http_stop_run { envC8 with runs := [] } [] 9 = 500 :=
  api_status_mapping.2.2.1 { envC8 with runs := [] } [] 9 rfl

/-- When every lookup succeeds, `_build_step_task` succeeds and the eight
re-asserted reserved keys of the result carry the values the code
computes, independently of `run.overrides`. -/
theorem build_step_task_fields (env : Env) (rm : RunMeta) (step_idx : Int)
    (prow : Dict) (prest : List Dict) (pid : Int) (protocol : Protocol)
    (step : Step) (pilot : BPilot) (pname : String)
    (hsess : (alistGet env.sessions rm.session_id).getD [] = prow :: prest)
    (hpid : asInt (pyGet prow "protocol_id") = some pid)
    (hproto : alistGet env.protocols pid = some protocol)
    (hstep : pyListGet protocol.steps step_idx = some step)
    (hpilot : alistGet env.pilots rm.pilot_id = some pilot)
    (hname : pilot.bname = some pname) :
    ∃ t, _build_step_task env rm step_idx = Except.ok t ∧
      alistGet t "task_type" = some (PVal.vstr step.task_type) ∧
      alistGet t "step_name" = some (PVal.vstr step.step_name) ∧
      alistGet t "pilot" = some (PVal.vstr pname) ∧
      alistGet t "subject" = some (PVal.vstr rm.subject_key) ∧
      alistGet t "session" = some (PVal.vnum rm.session_id) ∧
      alistGet t "step" = some (PVal.vnum step_idx) ∧
      alistGet t "run_id" = some (PVal.vnum rm.rid) ∧
      alistGet t "protocol_id" = some (PVal.vnum pid) := by
  unfold _build_step_task
  simp only [hsess, hpid, hproto, hstep, hpilot, hname]
  refine ⟨_, rfl, ?_, ?_, ?_, ?_, ?_, ?_, ?_, ?_⟩ <;>
    simp [alistGet_alistSet_ne, alistGet_alistSet_self]

/-- Updating with a dict that does not bind `k` leaves `k` alone. -/
theorem alistGet_dictUpdate_not_mem (d other : Dict) (k : String)
    (h : k ∉ other.map Prod.fst) :
    alistGet (dictUpdate d other) k = alistGet d k := by
  induction other generalizing d with
  | nil => rfl
  | cons kv rest ih =>
      simp only [List.map_cons, List.mem_cons] at h
      push_neg at h
      have : dictUpdate d (kv :: rest) = dictUpdate (alistSet d kv.1 kv.2) rest := rfl
      rw [this, ih _ h.2, alistGet_alistSet_ne _ _ _ _ h.1]

/-- Updating with a dict whose keys are unique makes each of its
bindings the final value. -/
theorem alistGet_dictUpdate_mem (d other : Dict) (k : String) (v : PVal)
    (hnd : (other.map Prod.fst).Nodup) (hmem : (k, v) ∈ other) :
    alistGet (dictUpdate d other) k = some v := by
  induction other generalizing d with
  | nil => simp at hmem
  | cons kv rest ih =>
      simp only [List.map_cons, List.nodup_cons] at hnd
      have hstep : dictUpdate d (kv :: rest) = dictUpdate (alistSet d kv.1 kv.2) rest := rfl
      rcases List.mem_cons.mp hmem with h | h
      · subst h
        rw [hstep, alistGet_dictUpdate_not_mem _ _ _ hnd.1,
          alistGet_alistSet_self]
      · rw [hstep]
        exact ih _ hnd.2 h

/-- The global-override dict of a run (`overrides.get("global") or {}`). -/
def ovGlobal (rm : RunMeta) : Dict := (rm.overrides.getD ⟨[], [], []⟩).globalOv

/-- The per-step override dict
(`overrides.steps.get(str(i)) or overrides.steps.get(i) or {}`). -/
def ovStep (rm : RunMeta) (i : Int) : Dict :=
  pyOrD (alistGet (rm.overrides.getD ⟨[], [], []⟩).stepsS (toString i))
    (pyOrD (alistGet (rm.overrides.getD ⟨[], [], []⟩).stepsI i) [])

/-- C7 (amended): overrides are applied in order — `overrides.global`
first, then `overrides.steps[step_idx]`, which therefore wins on
conflicts — and after them `_build_step_task` re-asserts the eight
reserved keys `task_type`, `step_name`, `pilot`, `subject`, `session`,
`step`, `run_id`, `protocol_id` (but not `current_trial`), so no
override can change those eight in the built payload. -/
theorem overrides_order_and_reserved_keys :
    (∀ task rm i, _apply_overrides task rm i =
        dictUpdate (dictUpdate task (ovGlobal rm)) (ovStep rm i)) ∧
    (∀ task rm i k v, ((ovStep rm i).map Prod.fst).Nodup →
        (k, v) ∈ ovStep rm i →
        alistGet (_apply_overrides task rm i) k = some v) ∧
    (∀ task rm i k v, k ∉ (ovStep rm i).map Prod.fst →
        ((ovGlobal rm).map Prod.fst).Nodup → (k, v) ∈ ovGlobal rm →
        alistGet (_apply_overrides task rm i) k = some v) ∧
    (∀ (env : Env) (rm : RunMeta) (o : Option Ovr) (step_idx : Int)
        (prow : Dict) (prest : List Dict) (pid : Int) (protocol : Protocol)
        (step : Step) (pilot : BPilot) (pname : String),
        (alistGet env.sessions rm.session_id).getD [] = prow :: prest →
        asInt (pyGet prow "protocol_id") = some pid →
        alistGet env.protocols pid = some protocol →
        pyListGet protocol.steps step_idx = some step →
        alistGet env.pilots rm.pilot_id = some pilot →
        pilot.bname = some pname →
        ∃ t, _build_step_task env { rm with overrides := o } step_idx =
            Except.ok t ∧
          alistGet t "task_type" = some (PVal.vstr step.task_type) ∧
          alistGet t "step_name" = some (PVal.vstr step.step_name) ∧
          alistGet t "pilot" = some (PVal.vstr pname) ∧
          alistGet t "subject" = some (PVal.vstr rm.subject_key) ∧
          alistGet t "session" = some (PVal.vnum rm.session_id) ∧
          alistGet t "step" = some (PVal.vnum step_idx) ∧
          alistGet t "run_id" = some (PVal.vnum rm.rid) ∧
          alistGet t "protocol_id" = some (PVal.vnum pid)) := by
  refine ⟨fun task rm i => rfl, ?_, ?_, ?_⟩
  · intro task rm i k v hnd hmem
    exact alistGet_dictUpdate_mem _ _ _ _ hnd hmem
  · intro task rm i k v hnot hnd hmem
    rw [show _apply_overrides task rm i =
        dictUpdate (dictUpdate task (ovGlobal rm)) (ovStep rm i) from rfl,
      alistGet_dictUpdate_not_mem _ _ _ hnot]
    exact alistGet_dictUpdate_mem _ _ _ _ hnd hmem
  · intro env rm o step_idx prow prest pid protocol step pilot pname
      h1 h2 h3 h4 h5 h6
    exact build_step_task_fields env { rm with overrides := o } step_idx
      prow prest pid protocol step pilot pname h1 h2 h3 h4 h5 h6

/-- Second protocol step used by the advance-path counterexample. -/
def step1 : Step := { task_type := "nafc", step_name := "s1", params := [] }

/-- Fixture for the advance path: two-step protocol, graduation advanced
the run to step 1, and a `current_trial` override in the run row. -/
def envAdv : Env :=
  { envHappy with
    protocols := [(1, { steps := [step0, step1] })],
    advanceStepResp := [(7, { finished := false, current_step := 1 })] }

def runOv : RunMeta :=
  { rm7 with overrides := some ⟨[("current_trial", PVal.vnum 7)], [], []⟩ }

/-- The START payload `_advance_run_step` hands to the gateway in the
fixture. -/
def advPayload : Dict :=
  match (_advance_run_step envAdv stAlpha runOv).1.getLast? with
  | some (Event.gwSendEvt _ _ (some t) _) => t
  | _ => []

/-- Counterexample for C7 as stated: `current_trial` is a reserved key of
the claim, yet an `overrides.global` entry `current_trial = 7` survives
into the START payload the advance path sends to the pilot —
`current_trial` is not in the builders' re-assert block. -/
theorem override_changes_current_trial :
    (_advance_run_step envAdv stAlpha runOv).1.getLast? =
      some (Event.gwSendEvt "alpha" "START" (some advPayload) true) ∧
    alistGet advPayload "current_trial" = some (PVal.vnum 7) ∧
    PVal.vnum 7 ≠ PVal.vnum 0 := by
  refine ⟨rfl, rfl, ?_⟩
  intro h
  injection h with h7
  omega

/-- Witness for C7's amended theorem at the advance fixture. -/
theorem overrides_order_and_reserved_keys_witness :
    ∃ t, _build_step_task envAdv
        { rm7 with overrides := some ⟨[("current_trial", PVal.vnum 7)], [], []⟩ } 1 =
        Except.ok t ∧
      alistGet t "task_type" = some (PVal.vstr "nafc") ∧
      alistGet t "step_name" = some (PVal.vstr "s1") ∧
      alistGet t "pilot" = some (PVal.vstr "alpha") ∧
      alistGet t "subject" = some (PVal.vstr "bp_s3_r7") ∧
      alistGet t "session" = some (PVal.vnum 3) ∧
      alistGet t "step" = some (PVal.vnum 1) ∧
      alistGet t "run_id" = some (PVal.vnum 7) ∧
      alistGet t "protocol_id" = some (PVal.vnum 1) :=
  overrides_order_and_reserved_keys.2.2.2 envAdv rm7
    (some ⟨[("current_trial", PVal.vnum 7)], [], []⟩) 1 protoRow [] 1
    { steps := [step0, step1] } step1 pilotAlpha "alpha"
    rfl rfl rfl rfl rfl rfl

/-- C1: if the gateway send of the START envelope raises during
`start_run(run_id)`, the controller marks the run error in the backend
with `error_type = "OrchGatewayError"`, never calls `mark_run_running`
in that invocation, clears the pilot's `active_run` locally and in the
KV mirror, and re-raises, so `POST /runs/{id}/start` returns 500. -/
theorem start_run_gateway_failure
    (env : Env) (st : Pilots) (run_id : Int)
    (rm : RunMeta) (pilot : BPilot) (pk : String) (prs : List Dict) (pid : Int)
    (task : Dict)
    (hL : startRunLookups env st run_id = Except.ok (rm, pilot, pk, prs, pid))
    (hT : startRunTask env run_id rm pilot prs = Except.ok task)
    (hsend : env.sendRaises = true)
    (hmerr : env.markErrorRaises = false)
    (hredis : env.hasRedis = true) :
    (start_run env st run_id).1 =
      [Event.gwSendEvt pk "START" (some task) false,
       Event.markRunError run_id "OrchGatewayError" true,
       Event.setActiveRunEvt pk PVal.vnull,
       Event.redisSetActiveRun pk none] ∧
    (∀ ok, Event.markRunRunning run_id ok ∉ (start_run env st run_id).1) ∧
    (start_run env st run_id).2.1 = set_active_run st pk PVal.vnull ∧
    (∃ rec, get_pilot (start_run env st run_id).2.1 pk = some rec ∧
      pyGet rec "active_run" = PVal.vnull) ∧
    (start_run env st run_id).2.2 =
      Except.error ⟨PyErrKind.runtimeError, "gateway send failed"⟩ ∧
    http_start_run env st run_id = 500 := by
  have heq : start_run env st run_id =
      ([Event.gwSendEvt pk "START" (some task) false,
        Event.markRunError run_id "OrchGatewayError" true,
        Event.setActiveRunEvt pk PVal.vnull,
        Event.redisSetActiveRun pk none],
       set_active_run st pk PVal.vnull,
       Except.error ⟨PyErrKind.runtimeError, "gateway send failed"⟩) := by
    unfold start_run
    simp only [hL, hT, hsend, hmerr, hredis, if_true, Bool.not_false,
      List.cons_append, List.nil_append]
  refine ⟨by rw [heq], ?_, by rw [heq], ?_, by rw [heq], ?_⟩
  · intro ok
    rw [heq]
    simp
  · rw [heq]
    exact get_pilot_set_active_run st pk PVal.vnull
  · unfold http_start_run
    rw [heq]
    rfl

/-- Fixture in which the gateway raises on send. -/
def envFail : Env := { envHappy with sendRaises := true }

/-- The task payload `start_run` builds in the failing fixture. -/
def task7 : Dict :=
  match startRunTask envFail 7 rm7 pilotAlpha [protoRow] with
  | Except.ok t => t
  | Except.error _ => []

/-- Witness for C1 at the concrete fixture. -/
theorem start_run_gateway_failure_witness :
    (start_run envFail stAlpha 7).1 =
      [Event.gwSendEvt "alpha" "START" (some task7) false,
       Event.markRunError 7 "OrchGatewayError" true,
       Event.setActiveRunEvt "alpha" PVal.vnull,
       Event.redisSetActiveRun "alpha" none] ∧
    http_start_run envFail stAlpha 7 = 500 :=
  let h := start_run_gateway_failure envFail stAlpha 7 rm7 pilotAlpha "alpha"
    [protoRow] 1 task7 rfl rfl rfl rfl rfl
  ⟨h.1, h.2.2.2.2.2⟩

/-- Every successfully built step task carries `step = step_idx` and
`current_trial = 0` (before `start_run`'s resume adjustment). -/
theorem build_step_task_step_field (env : Env) (rm : RunMeta) (i : Int) (t : Dict)
    (h : _build_step_task env rm i = Except.ok t) :
    alistGet t "step" = some (PVal.vnum i) := by
  unfold _build_step_task at h
  cases h1 : (alistGet env.sessions rm.session_id).getD [] with
  | nil => simp [h1] at h
  | cons prow prest =>
    simp only [h1] at h
    cases h2 : asInt (pyGet prow "protocol_id") with
    | none => simp [h2] at h
    | some pid =>
      simp only [h2] at h
      cases h3 : alistGet env.protocols pid with
      | none => simp [h3] at h
      | some protocol =>
        simp only [h3] at h
        cases h4 : pyListGet protocol.steps i with
        | none => simp [h4] at h
        | some step =>
          simp only [h4] at h
          cases h5 : alistGet env.pilots rm.pilot_id with
          | none => simp [h5] at h
          | some pilot =>
            simp only [h5] at h
            cases h6 : pilot.bname with
            | none => simp [h6] at h
            | some pname =>
              simp only [h6, Except.ok.injEq] at h
              subst h
              simp [alistGet_alistSet_ne, alistGet_alistSet_self]

/-- C6: when the backend progress has a non-null `current_step`, the sent
START payload is built for that step and carries
`current_trial = progress.current_trial`; otherwise it is built for
step 0 with `current_trial = 0`. -/
theorem start_run_progress_payload :
    (∀ (env : Env) (st : Pilots) (run_id : Int) (rm : RunMeta) (pilot : BPilot)
        (pk : String) (prs : List Dict) (pid : Int) (s c : Int) (task : Dict),
        startRunLookups env st run_id = Except.ok (rm, pilot, pk, prs, pid) →
        env.sendRaises = false →
        (startRunProgress env run_id).isEmpty = false →
        pyGet (startRunProgress env run_id) "current_step" = PVal.vnum s →
        alistGet (startRunProgress env run_id) "current_trial" =
          some (PVal.vnum c) →
        startRunTask env run_id rm pilot prs = Except.ok task →
        Event.gwSendEvt pk "START" (some task) true ∈ (start_run env st run_id).1 ∧
        alistGet task "step" = some (PVal.vnum s) ∧
        alistGet task "current_trial" = some (PVal.vnum c)) ∧
    (∀ (env : Env) (st : Pilots) (run_id : Int) (rm : RunMeta) (pilot : BPilot)
        (pk : String) (prs : List Dict) (pid : Int) (task : Dict),
        startRunLookups env st run_id = Except.ok (rm, pilot, pk, prs, pid) →
        env.sendRaises = false →
        ((startRunProgress env run_id).isEmpty = true ∨
          isNull (pyGet (startRunProgress env run_id) "current_step") = true) →
        startRunTask env run_id rm pilot prs = Except.ok task →
        Event.gwSendEvt pk "START" (some task) true ∈ (start_run env st run_id).1 ∧
        alistGet task "step" = some (PVal.vnum 0) ∧
        alistGet task "current_trial" = some (PVal.vnum 0)) := by
  constructor
  · intro env st run_id rm pilot pk prs pid s c task hL hsend hpe hcs hct hT
    have hmem : Event.gwSendEvt pk "START" (some task) true ∈
        (start_run env st run_id).1 := by
      unfold start_run
      simp only [hL, hT, hsend, Bool.false_eq_true, if_false]
      simp
    refine ⟨hmem, ?_⟩
    unfold startRunTask at hT
    simp only [hcs] at hT
    have hcond : (!(startRunProgress env run_id).isEmpty &&
        !isNull (PVal.vnum s)) = true := by
      rw [hpe]
      rfl
    simp only [hcond, if_true, asInt] at hT
    cases hb : _build_step_task env rm s with
    | error e => rw [hb] at hT; simp [Except.map] at hT
    | ok t0 =>
        rw [hb] at hT
        simp only [Except.map, Except.ok.injEq] at hT
        subst hT
        have hstep0 := build_step_task_step_field env rm s t0 hb
        constructor
        · simp [_attach_session_context, alistGet_alistSet_ne,
            alistGet_alistSet_self, hstep0]
        · simp [_attach_session_context, alistGet_alistSet_ne,
            alistGet_alistSet_self, pyGetD, hct]
  · intro env st run_id rm pilot pk prs pid task hL hsend hdisj hT
    have hmem : Event.gwSendEvt pk "START" (some task) true ∈
        (start_run env st run_id).1 := by
      unfold start_run
      simp only [hL, hT, hsend, Bool.false_eq_true, if_false]
      simp
    refine ⟨hmem, ?_⟩
    unfold startRunTask at hT
    have hcond : (!(startRunProgress env run_id).isEmpty &&
        !isNull (pyGet (startRunProgress env run_id) "current_step")) = false := by
      rcases hdisj with h | h
      · rw [h]
        rfl
      · rw [h]
        simp
    simp only [hcond, Bool.false_eq_true, if_false, _build_first_step_task] at hT
    cases hb : _build_step_task env rm 0 with
    | error e => rw [hb] at hT; simp [Except.map] at hT
    | ok t0 =>
        rw [hb] at hT
        simp only [Except.map, Except.ok.injEq] at hT
        subst hT
        have hstep0 := build_step_task_step_field env rm 0 t0 hb
        constructor
        · simp [_attach_session_context, alistGet_alistSet_ne,
            alistGet_alistSet_self, hstep0]
        · simp [_attach_session_context, alistGet_alistSet_ne,
            alistGet_alistSet_self]

/-- Third protocol step for the resume fixture. -/
def step2 : Step := { task_type := "gng", step_name := "s2", params := [] }

/-- Resume fixture: three-step protocol and backend progress
`{current_step: 2, current_trial: 5}` for run 7. -/
def envResume : Env :=
  { envHappy with
    protocols := [(1, { steps := [step0, step1, step2] })],
    progressOf := [(7, [("current_step", PVal.vnum 2),
                        ("current_trial", PVal.vnum 5)])] }

/-- The payload `start_run` builds in the resume fixture. -/
def taskResume : Dict :=
  match startRunTask envResume 7 rm7 pilotAlpha [protoRow] with
  | Except.ok t => t
  | Except.error _ => []

/-- Witness for C6: resuming run 7 at `{current_step: 2, current_trial: 5}`
sends a START payload with `step = 2` and `current_trial = 5`. -/
theorem start_run_progress_payload_witness :
    Event.gwSendEvt "alpha" "START" (some taskResume) true ∈
      (start_run envResume stAlpha 7).1 ∧
    alistGet taskResume "step" = some (PVal.vnum 2) ∧
    alistGet taskResume "current_trial" = some (PVal.vnum 5) :=
  start_run_progress_payload.1 envResume stAlpha 7 rm7 pilotAlpha "alpha"
    [protoRow] 1 2 5 taskResume rfl rfl rfl rfl rfl rfl

end Mics
